import Mathlib

/-!
Verification of the GR Cup telemetry analytics pipeline (pit-commander-ai).

This file gives a shallow embedding in Lean 4 of the parts of the code base
that the specification talks about, and proves or refutes the spec claims
against that embedding.

Conventions:
- Python floats are modelled as rationals.  Pandas/NumPy columns become
  Lean lists; a possibly-absent column becomes an Option of a list.
- A Python value that may be NaN or of the wrong type is modelled by a
  small inductive wrapper or an Option.
- Fallible operations are total in the embedding; where the Python code
  catches exceptions and substitutes a sentinel, the embedding returns the
  sentinel directly on the corresponding branch.
-/

namespace GRCup

/-! ## Data cleaner: src/data_processing/data_cleaner.py -/

/-- A cell of the vehicle_id column: a proper string, a NaN, or a value of
some non-string type (both of the latter are rejected by the code). -/
inductive VCell where
  | str (s : String)
  | nanV
  | nonString
deriving DecidableEq

/-- Splitting a character list on the dash character, mirroring the
semantics of the Python `split('-')` call (an empty input yields one empty
part, separators at the ends yield empty parts). -/
def splitDash : List Char → List (List Char)
  | [] => [[]]
  | c :: cs =>
    let r := splitDash cs
    if c = '-' then [] :: r
    else
      match r with
      | [] => [[c]]
      | g :: gs => (c :: g) :: gs

/-- Embedding of `GRCupDataCleaner.parse_vehicle_id`.  Splits on the dash;
requires exactly three parts with head "GR86"; remaps car number "000" to
the chassis; any malformed, NaN or non-string input yields
("unknown", "unknown").  The `try/except` wrapper of the source can only
produce the same pair, so the function is total. -/
def parse_vehicle_id : VCell → String × String
  | VCell.nanV => ("unknown", "unknown")
  | VCell.nonString => ("unknown", "unknown")
  | VCell.str v =>
    match splitDash v.data with
    | [p0, p1, p2] =>
      if p0 = "GR86".data then
        let chassis := String.mk p1
        let car_number := String.mk p2
        if car_number = "000" then (chassis, chassis) else (chassis, car_number)
      else ("unknown", "unknown")
    | _ => ("unknown", "unknown")

/-- The sentinel value that marks a corrupted lap count. -/
def lap_error_value : ℤ := 32768

/-- One input sample for the per-vehicle lap reconstruction: the recorded
lap value and the time gap (seconds) to the previous sample of the same
vehicle (`none` for the first sample, where the pandas `diff` is NaN). -/
structure LapIn where
  lap : ℤ
  gap : Option ℚ
deriving DecidableEq

/-- The inner reconstruction loop of `GRCupDataCleaner.fix_lap_errors`,
running over one vehicle's timestamp-sorted samples with the running lap
counter `cur` (the code starts it at 1). -/
def fixLapsAux (threshold : ℚ) : List LapIn → ℤ → List ℤ
  | [], _ => []
  | p :: l, cur =>
    if p.lap = lap_error_value then
      match p.gap with
      | some g =>
        if g > threshold then (cur + 1) :: fixLapsAux threshold l (cur + 1)
        else cur :: fixLapsAux threshold l cur
      | none => cur :: fixLapsAux threshold l cur
    else
      if p.lap > 0 then p.lap :: fixLapsAux threshold l p.lap
      else cur :: fixLapsAux threshold l cur

/-- One telemetry row, restricted to the columns that `fix_lap_errors`
touches.  The timestamp is the raw numeric value in milliseconds. -/
structure Row where
  vehicle_id : Option String
  timestamp : ℚ
  lap : ℤ
deriving DecidableEq

/-- Building the (lap, gap) inputs of the reconstruction from a vehicle's
rows: the first row has no gap, later rows carry the timestamp difference
converted from milliseconds to seconds. -/
def toLapInsGo (prev : Row) : List Row → List LapIn
  | [] => []
  | r :: rs => ⟨r.lap, some ((r.timestamp - prev.timestamp) / 1000)⟩ :: toLapInsGo r rs

/-- All (lap, gap) inputs for one vehicle group. -/
def toLapIns : List Row → List LapIn
  | [] => []
  | r :: rs => ⟨r.lap, none⟩ :: toLapInsGo r rs

/-- The reconstructed lap column for one vehicle group (threshold 120
seconds, counter starting at 1, as in the source). -/
def fixGroup (run : List Row) : List ℤ := fixLapsAux 120 (toLapIns run) 1

/-- The sort key used by `df.sort_values(['vehicle_id', 'timestamp'])`:
vehicle ids lexicographically with NaN last, ties broken by timestamp. -/
def rowLe (a b : Row) : Bool :=
  match a.vehicle_id, b.vehicle_id with
  | none, none => a.timestamp ≤ b.timestamp
  | none, some _ => false
  | some _, none => true
  | some x, some y => if x = y then decide (a.timestamp ≤ b.timestamp) else decide (x < y)

/-- Grouping consecutive rows that share a vehicle id.  After the sort the
rows of each vehicle are contiguous, so these runs are exactly the
per-vehicle groups the Python loop iterates over. -/
def groupRuns : List Row → List (List Row)
  | [] => []
  | r :: rs =>
    match groupRuns rs with
    | [] => [[r]]
    | g :: gs =>
      match g with
      | [] => [r] :: gs
      | x :: _ =>
        if r.vehicle_id = x.vehicle_id then (r :: g) :: gs
        else [r] :: g :: gs

/-- Writing the reconstructed lap numbers back into one vehicle group; a
group whose vehicle id is NaN is skipped (`if pd.isna(vehicle_id):
continue` in the source) and kept unchanged. -/
def processRun (run : List Row) : List Row :=
  match run with
  | [] => []
  | x :: _ =>
    match x.vehicle_id with
    | none => run
    | some _ => List.zipWith (fun r nl => { r with lap := nl }) run (fixGroup run)

/-- Embedding of `GRCupDataCleaner.fix_lap_errors`: if no lap equals the
sentinel the table is returned unchanged; otherwise the table is sorted by
(vehicle_id, timestamp), grouped by vehicle, and every non-NaN vehicle's
lap column is replaced by the reconstruction. -/
def fix_lap_errors (df : List Row) : List Row :=
  if df.countP (fun r => decide (r.lap = lap_error_value)) = 0 then df
  else (groupRuns (df.mergeSort rowLe)).flatMap processRun

/-! ## Pit strategy optimizer: src/models/pit_strategy.py -/

/-- The Python `int()` conversion on a float: truncation toward zero. -/
def pyInt (q : ℚ) : ℤ := if 0 ≤ q then ⌊q⌋ else -⌊-q⌋

/-- The Python `range(a, b)` over integers. -/
def intRange (a b : ℤ) : List ℤ := (List.range (b - a).toNat).map (fun i => a + i)

/-- One simulated pit scenario (the dict built by
`_simulate_single_scenario`). -/
structure PitScenario where
  pit_lap : ℤ
  total_time : ℚ
  position_changes : ℤ
  predicted_final_position : ℤ
  pit_now : Bool
  laps_to_pit : ℤ
deriving DecidableEq

/-- Average pit stop time loss (`self.pit_loss_seconds`). -/
def pit_loss_seconds : ℚ := 30

/-- The effective session-best lap time:
`track_features.get('session_best', 120)`. -/
def sessionBestEff (session_best : Option ℚ) : ℚ := session_best.getD 120

/-- Embedding of `PitStrategyOptimizer._simulate_single_scenario`.  The
tire model is abstracted as the function `predict` from (tire_age,
race_progress) to the predicted lap time; all other entries of the feature
dict are fixed across the calls the simulation makes, so this captures
exactly the variation the source exercises.  `gap_ahead` and `gap_behind`
are received but unused, as in the source. -/
def simulate_single_scenario (predict : ℚ → ℚ → ℚ) (pit_lap current_lap max_laps : ℤ)
    (current_position : ℤ) (gap_ahead gap_behind : ℚ) (session_best : Option ℚ)
    (current_tire_age : ℚ) : PitScenario :=
  let phase1 : ℚ :=
    ((intRange current_lap (pit_lap + 1)).map (fun lap =>
      predict (current_tire_age + ((lap - current_lap : ℤ) : ℚ))
        ((lap : ℚ) / (max_laps : ℚ)))).sum
  let pit_cost : ℚ := if pit_lap > current_lap then pit_loss_seconds else 0
  let position_changes : ℤ :=
    if pit_lap > current_lap then
      pyInt (pit_loss_seconds / (sessionBestEff session_best * (105 / 100)))
    else 0
  let phase2 : ℚ :=
    ((intRange (pit_lap + 1) (max_laps + 1)).map (fun lap =>
      predict (1 + ((lap - pit_lap - 1 : ℤ) : ℚ))
        ((lap : ℚ) / (max_laps : ℚ)))).sum
  { pit_lap := pit_lap
    total_time := phase1 + pit_cost + phase2
    position_changes := position_changes
    predicted_final_position := max 1 (current_position + position_changes)
    pit_now := decide (pit_lap = current_lap)
    laps_to_pit := pit_lap - current_lap }

/-- Embedding of `PitStrategyOptimizer.simulate_pit_scenarios`: simulate
each candidate pit lap from the current lap to
`min(max_laps - 5, current_lap + 15)` and sort by
`predicted_final_position` (a stable sort, as in Python). -/
def simulate_pit_scenarios (predict : ℚ → ℚ → ℚ) (current_lap max_laps current_position : ℤ)
    (gap_ahead gap_behind : ℚ) (tire_age_feature session_best : Option ℚ) :
    List PitScenario :=
  let current_tire_age : ℚ := tire_age_feature.getD (current_lap : ℚ)
  let pit_window_end : ℤ := min (max_laps - 5) (current_lap + 15)
  let scenarios := (intRange current_lap (pit_window_end + 1)).map (fun pit_lap =>
    simulate_single_scenario predict pit_lap current_lap max_laps current_position
      gap_ahead gap_behind session_best current_tire_age)
  scenarios.mergeSort (fun a b => decide (a.predicted_final_position ≤ b.predicted_final_position))

/-- The three branches of the position-impact phrasing in
`get_recommendation`. -/
inductive Impact where
  | gain
  | drop
  | stay
deriving DecidableEq

/-- The branch of `get_recommendation` that phrases the position impact of
the best scenario relative to the current position. -/
def position_impact (best : PitScenario) (current_position : ℤ) : Impact :=
  if best.predicted_final_position < current_position then Impact.gain
  else if best.predicted_final_position > current_position then Impact.drop
  else Impact.stay

/-! ## Tire degradation model: src/models/tire_degradation.py -/

/-- The fixed feature order of the model (`self.feature_names`). -/
def feature_names : List String :=
  ["tire_age", "driver_avg_pace", "track_avg_speed", "track_degradation_rate",
   "race_progress", "recent_pace_3lap", "session_best", "track_type_encoded"]

/-- The dict returned by `predict_lap_time`. -/
structure Prediction where
  predicted_time : ℚ
  confidence : ℚ
  uncertainty : ℚ
deriving DecidableEq

/-- The state of a `TireDegradationModel`: the trained flag, the regressor
(abstracted as a function on the scaled feature vector), the persisted
scaler (a function on the raw feature vector), and the persisted test
metrics (absent when `training_metrics` lacks the key). -/
structure TireModelState where
  is_trained : Bool
  model : Option (List ℚ → ℚ)
  scaler : List ℚ → List ℚ
  test_r2 : Option ℚ
  test_rmse : Option ℚ

/-- The raw feature vector built from a feature map: each of the 8 named
features, a missing key contributing 0.0. -/
def feature_vector (features : List (String × ℚ)) : List ℚ :=
  feature_names.map (fun n => ((features.lookup n).getD 0))

/-- Embedding of `TireDegradationModel.predict_lap_time`.  An untrained or
unloaded model yields the sentinel dict; otherwise the scaled feature
vector is fed to the regressor, confidence is `min(0.95, test_r2)` with
0.5 substituted when the metric was never stored, and uncertainty is the
stored test RMSE (1.0 when never stored).  The `try/except` of the source
can only return the same sentinel, so the function is total. -/
def predict_lap_time (st : TireModelState) (features : List (String × ℚ)) : Prediction :=
  match st.is_trained, st.model with
  | false, _ => ⟨0, 0, 999⟩
  | true, none => ⟨0, 0, 999⟩
  | true, some f =>
    { predicted_time := f (st.scaler (feature_vector features))
      confidence := min (95 / 100) (st.test_r2.getD (1 / 2))
      uncertainty := st.test_rmse.getD 1 }

/-! ## Track degradation rate, two computations (C8) -/

/-- One row of a lap-level table for a single track. -/
structure LapRec where
  lap_number : ℤ
  lap_time : ℚ
deriving DecidableEq

/-- Arithmetic mean of a list (pandas `Series.mean` on nonempty data). -/
def mean (l : List ℚ) : ℚ := l.sum / l.length

/-- Lap times of the early laps (2 to 5) of a track table. -/
def earlyLapTimes (rows : List LapRec) : List ℚ :=
  (rows.filter (fun r => decide (2 ≤ r.lap_number) && decide (r.lap_number ≤ 5))).map
    (fun r => r.lap_time)

/-- Lap times of the late laps (15 and up) of a track table. -/
def lateLapTimes (rows : List LapRec) : List ℚ :=
  (rows.filter (fun r => decide (15 ≤ r.lap_number))).map (fun r => r.lap_time)

/-- Embedding of the per-track body of
`TireDegradationModel._calculate_track_degradation`: late mean minus early
mean when both windows are populated, a default of 0.5 otherwise, and the
result clamped below by 0 (`max(0, degradation_rate)`). -/
def calculate_track_degradation (rows : List LapRec) : ℚ :=
  let early_laps := earlyLapTimes rows
  let late_laps := lateLapTimes rows
  let degradation_rate : ℚ :=
    if early_laps ≠ [] ∧ late_laps ≠ [] then mean late_laps - mean early_laps
    else 1 / 2
  max 0 degradation_rate

/-- Embedding of the per-track rate of
`MultiTrackLoader.compare_tire_degradation` (the spec's section 4.4):
plain difference of the window means, the track being skipped (`none`)
when either window is empty. -/
def loader_degradation_rate (rows : List LapRec) : Option ℚ :=
  let early_laps := earlyLapTimes rows
  let late_laps := lateLapTimes rows
  if early_laps = [] ∨ late_laps = [] then none
  else some (mean late_laps - mean early_laps)

/-! ## Derived telemetry features: data_cleaner.calculate_derived_features -/

/-- The telemetry columns that feed the derived features; `none` models an
absent column, `some` a present column of per-row values. -/
structure TeleFrame where
  Speed : Option (List ℚ)
  nmotor : Option (List ℚ)
  ath : Option (List ℚ)
  aps : Option (List ℚ)
  pbrake_f : Option (List ℚ)
  pbrake_r : Option (List ℚ)
  accx_can : Option (List ℚ)
  accy_can : Option (List ℚ)
  Steering_Angle : Option (List ℚ)
  Gear : Option (List ℚ)

/-- The derived columns added by `calculate_derived_features`; `none`
models a column that was skipped because a source column was absent. -/
structure DerivedFrame where
  braking_intensity : Option (List ℚ)
  cornering_force : Option (List ℚ)
  throttle_efficiency : Option (List ℚ)
  pedal_vs_throttle : Option (List ℚ)
  total_brake_pressure : Option (List ℚ)
  rpm_per_gear : Option (List ℚ)
  speed_per_rpm : Option (List ℚ)

/-- Elementwise combination of two columns, defined only when both are
present. -/
def opt2 (f : ℚ → ℚ → ℚ) : Option (List ℚ) → Option (List ℚ) → Option (List ℚ)
  | some a, some b => some (List.zipWith f a b)
  | _, _ => none

/-- The pandas `Series.clip(upper=u)` on one value. -/
def pyClipUpper (u q : ℚ) : ℚ := min q u

/-- Embedding of `GRCupDataCleaner.calculate_derived_features`: each
derived column is computed elementwise exactly when all of its source
columns are present. -/
def calculate_derived_features (df : TeleFrame) : DerivedFrame :=
  { braking_intensity := opt2 (fun pb ax => pb * |pyClipUpper 0 ax|) df.pbrake_f df.accx_can
    cornering_force := opt2 (fun ay sa => |ay * sa|) df.accy_can df.Steering_Angle
    throttle_efficiency := opt2 (fun sp a => sp / (a + 1)) df.Speed df.ath
    pedal_vs_throttle := opt2 (fun ap a => ap - a) df.aps df.ath
    total_brake_pressure := opt2 (fun pf pr => pf + pr) df.pbrake_f df.pbrake_r
    rpm_per_gear := opt2 (fun n g => n / (g + 1)) df.nmotor df.Gear
    speed_per_rpm := opt2 (fun sp n => sp / (n + 1)) df.Speed df.nmotor }

/-! ## Baseline update: scripts/new_data_processor.py -/

/-- The pandas max of a column (defined here on nonempty data; the claims
only exercise nonempty sessions). -/
def pandasMax (l : List ℚ) : ℚ :=
  match l with
  | [] => 0
  | x :: xs => xs.foldl max x

/-- The pandas min of a column (defined here on nonempty data). -/
def pandasMin (l : List ℚ) : ℚ :=
  match l with
  | [] => 0
  | x :: xs => xs.foldl min x

/-- The overall running-average benchmarks of a track baseline. -/
structure OverallBenchmarks where
  field_avg_speed : ℚ
  field_max_speed : ℚ
  field_avg_braking : ℚ
  field_avg_lateral_g : ℚ
deriving DecidableEq

/-- The parts of a stored baseline that
`update_baseline_with_new_data` reads and writes numerically. -/
structure Baseline where
  total_sessions : ℕ
  overall_benchmarks : OverallBenchmarks
deriving DecidableEq

/-- Embedding of `NewDataProcessor.update_baseline_with_new_data`,
restricted to the session counter and the overall benchmarks: the new
session's Speed, pbrake_f and accy_can columns are aggregated and blended
into the running averages with weight `total_sessions - 1` (after the
increment) for the old value and weight 1 for the new session. -/
def update_baseline_with_new_data (b : Baseline)
    (speed pbrake_f accy_can : List ℚ) : Baseline :=
  let total_sessions := b.total_sessions + 1
  let current_weight : ℚ := (total_sessions : ℚ) - 1
  let new_weight : ℚ := 1
  let total_weight : ℚ := current_weight + new_weight
  if total_weight > 0 then
    { total_sessions := total_sessions
      overall_benchmarks :=
        { field_avg_speed :=
            (b.overall_benchmarks.field_avg_speed * current_weight +
              mean speed * new_weight) / total_weight
          field_max_speed :=
            max b.overall_benchmarks.field_max_speed (pandasMax speed)
          field_avg_braking :=
            (b.overall_benchmarks.field_avg_braking * current_weight +
              mean pbrake_f * new_weight) / total_weight
          field_avg_lateral_g :=
            (b.overall_benchmarks.field_avg_lateral_g * current_weight +
              mean (accy_can.map (fun q => |q|)) * new_weight) / total_weight } }
  else { b with total_sessions := total_sessions }

/-! ## Analytics API: aws_deployment/src/api/fixed_main.py -/

/-- The Python `round(q, ndigits)` (round half to even), on the rational
idealisation of the float values. -/
def pyRound (ndigits : ℕ) (q : ℚ) : ℚ :=
  let x : ℚ := q * 10 ^ ndigits
  let f : ℤ := ⌊x⌋
  let r : ℤ := if x - f < 1 / 2 then f else if x - f > 1 / 2 then f + 1
    else if Even f then f else f + 1
  (r : ℚ) / 10 ^ ndigits

/-- One parsed CSV row as seen by `parse_csv_data`: a field is `some q`
when the column is present, nonempty and parses as a float. -/
structure CsvRow where
  Speed : Option ℚ
  pbrake_f : Option ℚ
  ath : Option ℚ
  accy_can : Option ℚ
  lap : Option String
  track_name : Option String
deriving DecidableEq

/-- The analytics dict computed from real telemetry by `parse_csv_data`. -/
structure Analytics where
  total_data_points : ℕ
  max_speed : ℚ
  avg_speed : ℚ
  min_speed : ℚ
  max_braking : ℚ
  avg_throttle : ℚ
  max_lateral_g : ℚ
  unique_laps : ℕ
  track_name : String
deriving DecidableEq

/-- Embedding of `parse_csv_data`: `none` when there are no rows or no
valid speed values, otherwise the aggregate analytics. -/
def parse_csv_data (rows : List CsvRow) : Option Analytics :=
  if rows = [] then none
  else
    let speeds := rows.filterMap (fun r => r.Speed)
    let braking := rows.filterMap (fun r => r.pbrake_f)
    let throttle := rows.filterMap (fun r => r.ath)
    let lateral_g := (rows.filterMap (fun r => r.accy_can)).map (fun q => |q|)
    let laps := ((rows.filterMap (fun r => r.lap)).filter (fun s => decide (s ≠ ""))).dedup
    if speeds = [] then none
    else some
      { total_data_points := rows.length
        max_speed := if speeds ≠ [] then pyRound 1 (pandasMax speeds) else 0
        avg_speed := if speeds ≠ [] then pyRound 1 (mean speeds) else 0
        min_speed := if speeds ≠ [] then pyRound 1 (pandasMin speeds) else 0
        max_braking := if braking ≠ [] then pyRound 1 (pandasMax braking) else 0
        avg_throttle := if throttle ≠ [] then pyRound 1 (mean throttle) else 0
        max_lateral_g := if lateral_g ≠ [] then pyRound 2 (pandasMax lateral_g) else 0
        unique_laps := laps.length
        track_name := ((rows.head?.bind (fun r => r.track_name)).getD "Unknown") }

/-- The fixed demo analytics values for one track. -/
structure DemoAnalytics where
  max_speed : ℚ
  avg_speed : ℚ
  max_braking : ℚ
  max_lateral_g : ℚ
  total_data_points : ℕ
  unique_laps : ℕ
deriving DecidableEq

/-- The seven-entry demo analytics table of the `/analytics/` route. -/
def demo_analytics : String → Option DemoAnalytics
  | "BMP" => some ⟨158.0, 125.5, 85.0, 1.8, 2500, 5⟩
  | "COTA" => some ⟨175.2, 135.8, 92.0, 2.1, 2800, 6⟩
  | "VIR" => some ⟨165.5, 130.2, 88.0, 1.9, 2600, 5⟩
  | "SEB" => some ⟨170.8, 128.9, 90.0, 2.0, 2700, 6⟩
  | "SON" => some ⟨145.3, 115.6, 95.0, 2.3, 2200, 4⟩
  | "RA" => some ⟨180.1, 140.2, 85.0, 1.7, 3200, 7⟩
  | "INDY" => some ⟨172.5, 132.8, 87.0, 1.8, 2900, 6⟩
  | _ => none

/-- The data_source tag of an analytics response. -/
inductive DataSource where
  | real_telemetry
  | demo_data
deriving DecidableEq

/-- The body of an analytics response. -/
inductive RespBody where
  | real (a : Analytics)
  | demo (d : DemoAnalytics)
  | err
deriving DecidableEq

/-- An HTTP response of the analytics route, restricted to the fields the
claims mention. -/
structure Response where
  statusCode : ℕ
  data_source : Option DataSource
  body : RespBody
deriving DecidableEq

/-- The demo fallback of the analytics route: the fixed demo analytics for
a configured track, 404 otherwise. -/
def demo_fallback (track_id : String) : Response :=
  match demo_analytics track_id with
  | some d => ⟨200, some DataSource.demo_data, RespBody.demo d⟩
  | none => ⟨404, none, RespBody.err⟩

/-- Embedding of the `/analytics/{track_id}` branch of `lambda_handler`:
`s3_object` is the content of the track's cleaned-CSV object, already
split into rows (`none` when the object is missing; an empty object falls
through to the fallback exactly like a missing one, since its parse yields
no rows). -/
def analytics_route (s3_object : Option (List CsvRow)) (track_id : String) : Response :=
  match s3_object with
  | some rows =>
    match parse_csv_data rows with
    | some a => ⟨200, some DataSource.real_telemetry, RespBody.real a⟩
    | none => demo_fallback track_id
  | none => demo_fallback track_id

/-! ## Theorems -/

/-- C3: for every per-vehicle, timestamp-sorted sample sequence, the
lap-error fix computes the output lap of each row by the stated
recurrence: a sentinel-valued row whose gap exceeds 120 seconds takes the
incremented counter; a sentinel-valued row with gap at most 120 seconds or
no gap takes the current counter; a non-sentinel row with positive lap
value sets the counter to that value and takes it. -/
theorem fix_lap_recurrence (p : LapIn) (l : List LapIn) (cur : ℤ) :
    (p.lap = lap_error_value →
      ∀ g : ℚ, p.gap = some g → g > 120 →
        fixLapsAux 120 (p :: l) cur = (cur + 1) :: fixLapsAux 120 l (cur + 1))
    ∧ (p.lap = lap_error_value →
        (p.gap = none ∨ ∃ g : ℚ, p.gap = some g ∧ ¬g > 120) →
        fixLapsAux 120 (p :: l) cur = cur :: fixLapsAux 120 l cur)
    ∧ (p.lap ≠ lap_error_value → 0 < p.lap →
        fixLapsAux 120 (p :: l) cur = p.lap :: fixLapsAux 120 l p.lap) := by
  refine ⟨?_, ?_, ?_⟩
  · intro hs g hg hgt
    simp [fixLapsAux, hs, hg, hgt]
  · intro hs hng
    rcases hng with hn | ⟨g, hg, hle⟩
    · simp [fixLapsAux, hs, hn]
    · simp [fixLapsAux, hs, hg, hle]
  · intro hns hpos
    simp [fixLapsAux, hns, hpos]

/-- Witness for C3: a sentinel sample with a 130-second gap after counter 1
is assigned lap 2. -/
theorem fix_lap_recurrence_witness :
    fixLapsAux 120 [⟨lap_error_value, some 130⟩] 1 = [2] := by
  have h := (fix_lap_recurrence ⟨lap_error_value, some 130⟩ [] 1).1 rfl 130 rfl (by norm_num)
  simpa [fixLapsAux] using h

/-- C4: vehicle-identity parsing is total and never fails: exactly three
dash-separated parts with head "GR86" give (chassis, car number) with car
number "000" remapped to the chassis; every other input (wrong part
count, wrong prefix, NaN, non-string) gives ("unknown", "unknown"). -/
theorem parse_vehicle_id_spec :
    (∀ v : String, ∀ p1 p2 : List Char,
      splitDash v.data = ["GR86".data, p1, p2] →
      parse_vehicle_id (VCell.str v)
        = (String.mk p1, if String.mk p2 = "000" then String.mk p1 else String.mk p2))
    ∧ (∀ v : String,
        (splitDash v.data).length ≠ 3 ∨ (splitDash v.data).head? ≠ some "GR86".data →
        parse_vehicle_id (VCell.str v) = ("unknown", "unknown"))
    ∧ parse_vehicle_id VCell.nanV = ("unknown", "unknown")
    ∧ parse_vehicle_id VCell.nonString = ("unknown", "unknown") := by
  refine ⟨?_, ?_, rfl, rfl⟩
  · intro v p1 p2 h
    simp only [parse_vehicle_id, h]
    split_ifs with h1 h2
    · simp [h2]
    · simp [h2]
    · exact absurd trivial h1
    · exact absurd trivial h1
  · intro v h
    simp only [parse_vehicle_id]
    rcases hs : splitDash v.data with _ | ⟨p0, rest0⟩
    · rfl
    · rcases rest0 with _ | ⟨p1, rest1⟩
      · rfl
      · rcases rest1 with _ | ⟨p2, rest2⟩
        · rfl
        · rcases rest2 with _ | ⟨p3, rest3⟩
          · rcases h with hlen | hhead
            · rw [hs] at hlen
              simp at hlen
            · have hp0 : ¬p0 = "GR86".data := by
                intro he
                apply hhead
                rw [hs, he]
                rfl
              change (if p0 = "GR86".data then
                  if String.mk p2 = "000" then (String.mk p1, String.mk p1)
                  else (String.mk p1, String.mk p2)
                else ("unknown", "unknown")) = ("unknown", "unknown")
              rw [if_neg hp0]
          · rfl

/-- Witness for C4: the three examples of the spec. -/
theorem parse_vehicle_id_spec_witness :
    parse_vehicle_id (VCell.str "GR86-001-042") = ("001", "042")
    ∧ parse_vehicle_id (VCell.str "GR86-001-000") = ("001", "001")
    ∧ parse_vehicle_id (VCell.str "BADID") = ("unknown", "unknown") := by
  refine ⟨?_, ?_, ?_⟩
  · have h := parse_vehicle_id_spec.1 "GR86-001-042" "001".data "042".data (by decide)
    rw [h]; decide
  · have h := parse_vehicle_id_spec.1 "GR86-001-000" "001".data "000".data (by decide)
    rw [h]; decide
  · exact parse_vehicle_id_spec.2.1 "BADID" (Or.inl (by decide))

/-- C6: prediction never raises; an untrained or unloaded model returns
exactly the sentinel (0.0, 0.0, 999.0); a trained model returns confidence
min(0.95, stored test R-squared) and uncertainty the stored test RMSE, the
feature vector being built with missing keys as 0.0. -/
theorem predict_lap_time_spec (st : TireModelState) (features : List (String × ℚ))
    (r2 rmse : ℚ) (h1 : st.test_r2 = some r2) (h2 : st.test_rmse = some rmse) :
    ((st.is_trained = false ∨ st.model = none) →
      predict_lap_time st features = ⟨0, 0, 999⟩)
    ∧ (∀ f, st.is_trained = true → st.model = some f →
        predict_lap_time st features
          = ⟨f (st.scaler (feature_vector features)), min (95 / 100) r2, rmse⟩)
    ∧ feature_vector [] = [0, 0, 0, 0, 0, 0, 0, 0] := by
  obtain ⟨tr, mo, sc, m1, m2⟩ := st
  refine ⟨?_, ?_, rfl⟩
  · rintro (h | h)
    · cases h
      rfl
    · cases h
      cases tr <;> rfl
  · rintro f htr hmo
    cases htr
    cases hmo
    simp only [predict_lap_time] at *
    simp only [h1, h2] at *
    rfl

/-- Witness for C6: a trained model state with stored metrics, applied to
the empty feature map, and an untrained state returning the sentinel. -/
theorem predict_lap_time_spec_witness :
    predict_lap_time ⟨true, some (fun l => l.sum), id, some (9 / 10), some (2 / 5)⟩ []
      = ⟨0, 9 / 10, 2 / 5⟩
    ∧ predict_lap_time ⟨false, none, id, some (9 / 10), some (2 / 5)⟩ [] = ⟨0, 0, 999⟩ := by
  constructor
  · have h := (predict_lap_time_spec
      ⟨true, some (fun l => l.sum), id, some (9 / 10), some (2 / 5)⟩ []
      (9 / 10) (2 / 5) rfl rfl).2.1 (fun l => l.sum) rfl rfl
    rw [h]
    have hv : feature_vector ([] : List (String × ℚ)) = [0, 0, 0, 0, 0, 0, 0, 0] := rfl
    simp only [id_eq, hv]
    norm_num [List.sum]
  · exact (predict_lap_time_spec ⟨false, none, id, some (9 / 10), some (2 / 5)⟩ []
      (9 / 10) (2 / 5) rfl rfl).1 (Or.inl rfl)

/-- C7: the baseline update increments total_sessions and blends each
overall running-average benchmark with weight (total_sessions - 1) for
the old value and 1 for the new session aggregate; starting from an empty
baseline, one session of average speed 100 gives exactly 100, and a second
of average speed 120 gives exactly 110. -/
theorem update_baseline_spec (b : Baseline) (speed pbrake_f accy_can : List ℚ) :
    ((update_baseline_with_new_data b speed pbrake_f accy_can).total_sessions
        = b.total_sessions + 1)
    ∧ ((update_baseline_with_new_data b speed pbrake_f accy_can).overall_benchmarks.field_avg_speed
        = (b.overall_benchmarks.field_avg_speed * (((b.total_sessions + 1 : ℕ) : ℚ) - 1)
            + mean speed * 1) / ((b.total_sessions + 1 : ℕ) : ℚ))
    ∧ ((update_baseline_with_new_data b speed pbrake_f accy_can).overall_benchmarks.field_avg_braking
        = (b.overall_benchmarks.field_avg_braking * (((b.total_sessions + 1 : ℕ) : ℚ) - 1)
            + mean pbrake_f * 1) / ((b.total_sessions + 1 : ℕ) : ℚ))
    ∧ ((update_baseline_with_new_data b speed pbrake_f accy_can).overall_benchmarks.field_avg_lateral_g
        = (b.overall_benchmarks.field_avg_lateral_g * (((b.total_sessions + 1 : ℕ) : ℚ) - 1)
            + mean (accy_can.map (fun q => |q|)) * 1) / ((b.total_sessions + 1 : ℕ) : ℚ))
    ∧ (update_baseline_with_new_data ⟨0, ⟨0, 0, 0, 0⟩⟩ [100] [0] [0]).overall_benchmarks.field_avg_speed
        = 100
    ∧ (update_baseline_with_new_data
        (update_baseline_with_new_data ⟨0, ⟨0, 0, 0, 0⟩⟩ [100] [0] [0])
        [120] [0] [0]).overall_benchmarks.field_avg_speed = 110 := by
  have hpos : ((((b.total_sessions + 1 : ℕ) : ℚ)) - 1) + 1 > 0 := by
    have hnn : (0 : ℚ) ≤ (b.total_sessions : ℚ) := Nat.cast_nonneg b.total_sessions
    push_cast
    linarith
  refine ⟨?_, ?_, ?_, ?_, ?_, ?_⟩
  · simp only [update_baseline_with_new_data]
    split_ifs <;> rfl
  · simp only [update_baseline_with_new_data, if_pos hpos]
    ring_nf
  · simp only [update_baseline_with_new_data, if_pos hpos]
    ring_nf
  · simp only [update_baseline_with_new_data, if_pos hpos]
    ring_nf
  · norm_num [update_baseline_with_new_data, mean, pandasMax]
  · norm_num [update_baseline_with_new_data, mean, pandasMax]

/-- Counterexample for C8: on a track whose late laps are faster than its
early laps (early pace 105, late pace 100) the model feature engineering
reports a degradation rate of 0 (it clamps at zero), while the Multi-Track
Loader section 4.4 difference is -5, so the two computations disagree. -/
theorem track_degradation_cex :
    calculate_track_degradation [⟨2, 105⟩, ⟨15, 100⟩] = 0
    ∧ loader_degradation_rate [⟨2, 105⟩, ⟨15, 100⟩] = some (-5)
    ∧ (0 : ℚ) ≠ -5 := by
  have he : earlyLapTimes [⟨2, 105⟩, ⟨15, 100⟩] = [105] := by
    simp [earlyLapTimes]
  have hl : lateLapTimes [⟨2, 105⟩, ⟨15, 100⟩] = [100] := by
    simp [lateLapTimes]
  refine ⟨?_, ?_, by norm_num⟩
  · simp only [calculate_track_degradation, he, hl]
    norm_num [mean]
  · simp only [loader_degradation_rate, he, hl]
    norm_num [mean]

/-- C8 amended: per track, the model feature engineering's degradation
rate equals max(0, loader rate) whenever the loader's section 4.4 rate is
defined (so the two agree exactly when late pace is at least early pace),
and equals the default 0.5 when either lap window is empty. -/
theorem track_degradation_amended (rows : List LapRec) :
    (∀ d : ℚ, loader_degradation_rate rows = some d →
      calculate_track_degradation rows = max 0 d)
    ∧ (loader_degradation_rate rows = none → calculate_track_degradation rows = 1 / 2) := by
  constructor
  · intro d hd
    simp only [loader_degradation_rate] at hd
    by_cases hcond : earlyLapTimes rows = [] ∨ lateLapTimes rows = []
    · rw [if_pos hcond] at hd
      exact absurd hd (by simp)
    · rw [if_neg hcond] at hd
      push_neg at hcond
      simp only [Option.some.injEq] at hd
      simp only [calculate_track_degradation, if_pos (And.intro hcond.1 hcond.2), hd]
  · intro hd
    simp only [loader_degradation_rate] at hd
    by_cases hcond : earlyLapTimes rows = [] ∨ lateLapTimes rows = []
    · have hne : ¬(earlyLapTimes rows ≠ [] ∧ lateLapTimes rows ≠ []) := by
        rcases hcond with hcase | hcase <;> simp [hcase]
      simp only [calculate_track_degradation, if_neg hne]
      norm_num
    · rw [if_neg hcond] at hd
      exact absurd hd (by simp)

/-- Witness for C8 amended: a track with early pace 100 and late pace 105
gives rate 5 on both sides. -/
theorem track_degradation_amended_witness :
    calculate_track_degradation [⟨2, 100⟩, ⟨15, 105⟩] = 5 := by
  have h := (track_degradation_amended [⟨2, 100⟩, ⟨15, 105⟩]).1 5 (by
    have he : earlyLapTimes [⟨2, 100⟩, ⟨15, 105⟩] = [100] := by
      simp [earlyLapTimes]
    have hl : lateLapTimes [⟨2, 100⟩, ⟨15, 105⟩] = [105] := by
      simp [lateLapTimes]
    simp only [loader_degradation_rate, he, hl]
    norm_num [mean])
  rw [h]
  norm_num

/-- C9: the analytics route returns 200 with data_source real_telemetry
when the cleaned-CSV object exists and parses; 200 with the fixed demo
analytics when the object is absent but the track has a demo entry; 404
when the object is absent and the track has no demo entry; and never any
status other than 200 or 404. -/
theorem analytics_route_spec (s3_object : Option (List CsvRow)) (track_id : String) :
    (∀ rows a, s3_object = some rows → parse_csv_data rows = some a →
      analytics_route s3_object track_id
        = ⟨200, some DataSource.real_telemetry, RespBody.real a⟩)
    ∧ (∀ d, s3_object = none → demo_analytics track_id = some d →
      analytics_route s3_object track_id
        = ⟨200, some DataSource.demo_data, RespBody.demo d⟩)
    ∧ (s3_object = none → demo_analytics track_id = none →
      (analytics_route s3_object track_id).statusCode = 404)
    ∧ ((analytics_route s3_object track_id).statusCode = 200
        ∨ (analytics_route s3_object track_id).statusCode = 404) := by
  refine ⟨?_, ?_, ?_, ?_⟩
  · rintro rows a rfl hp
    simp [analytics_route, hp]
  · rintro d rfl hd
    simp [analytics_route, demo_fallback, hd]
  · rintro rfl hd
    simp [analytics_route, demo_fallback, hd]
  · cases s3_object with
    | none =>
      cases hd : demo_analytics track_id <;>
        simp [analytics_route, demo_fallback, hd]
    | some rows =>
      cases hp : parse_csv_data rows with
      | none =>
        cases hd : demo_analytics track_id <;>
          simp [analytics_route, demo_fallback, hp, hd]
      | some a => simp [analytics_route, hp]

/-- Witness for C9: a missing object for BMP serves the demo analytics
with status 200, and a missing object for an unconfigured track id gives
404. -/
theorem analytics_route_spec_witness :
    analytics_route none "BMP"
      = ⟨200, some DataSource.demo_data, RespBody.demo ⟨158.0, 125.5, 85.0, 1.8, 2500, 5⟩⟩
    ∧ (analytics_route none "XYZ").statusCode = 404 := by
  constructor
  · exact (analytics_route_spec none "BMP").2.1 ⟨158.0, 125.5, 85.0, 1.8, 2500, 5⟩ rfl rfl
  · exact (analytics_route_spec none "XYZ").2.2.1 rfl rfl

/-- C5: each derived telemetry feature is added exactly when all of its
source columns are present and is omitted otherwise, with the row-level
formulas of the spec: braking_intensity = pbrake_f x abs(min(accx_can,0)),
cornering_force = abs(accy_can x Steering_Angle), throttle_efficiency =
Speed / (ath + 1), pedal_vs_throttle = aps - ath, total_brake_pressure =
pbrake_f + pbrake_r, rpm_per_gear = nmotor / (Gear + 1), speed_per_rpm =
Speed / (nmotor + 1). -/
theorem calculate_derived_features_spec (df : TeleFrame) :
    (((calculate_derived_features df).braking_intensity).isSome
        ↔ df.pbrake_f.isSome ∧ df.accx_can.isSome)
    ∧ (∀ pb ax, df.pbrake_f = some pb → df.accx_can = some ax →
        (calculate_derived_features df).braking_intensity
          = some (List.zipWith (fun p a => p * |min a 0|) pb ax))
    ∧ (((calculate_derived_features df).cornering_force).isSome
        ↔ df.accy_can.isSome ∧ df.Steering_Angle.isSome)
    ∧ (∀ ay sa, df.accy_can = some ay → df.Steering_Angle = some sa →
        (calculate_derived_features df).cornering_force
          = some (List.zipWith (fun a s => |a * s|) ay sa))
    ∧ (((calculate_derived_features df).throttle_efficiency).isSome
        ↔ df.Speed.isSome ∧ df.ath.isSome)
    ∧ (∀ sp a, df.Speed = some sp → df.ath = some a →
        (calculate_derived_features df).throttle_efficiency
          = some (List.zipWith (fun s t => s / (t + 1)) sp a))
    ∧ (((calculate_derived_features df).pedal_vs_throttle).isSome
        ↔ df.aps.isSome ∧ df.ath.isSome)
    ∧ (∀ ap a, df.aps = some ap → df.ath = some a →
        (calculate_derived_features df).pedal_vs_throttle
          = some (List.zipWith (fun x y => x - y) ap a))
    ∧ (((calculate_derived_features df).total_brake_pressure).isSome
        ↔ df.pbrake_f.isSome ∧ df.pbrake_r.isSome)
    ∧ (∀ pf pr, df.pbrake_f = some pf → df.pbrake_r = some pr →
        (calculate_derived_features df).total_brake_pressure
          = some (List.zipWith (fun x y => x + y) pf pr))
    ∧ (((calculate_derived_features df).rpm_per_gear).isSome
        ↔ df.nmotor.isSome ∧ df.Gear.isSome)
    ∧ (∀ n g, df.nmotor = some n → df.Gear = some g →
        (calculate_derived_features df).rpm_per_gear
          = some (List.zipWith (fun x y => x / (y + 1)) n g))
    ∧ (((calculate_derived_features df).speed_per_rpm).isSome
        ↔ df.Speed.isSome ∧ df.nmotor.isSome)
    ∧ (∀ sp n, df.Speed = some sp → df.nmotor = some n →
        (calculate_derived_features df).speed_per_rpm
          = some (List.zipWith (fun x y => x / (y + 1)) sp n)) := by
  refine ⟨?_, ?_, ?_, ?_, ?_, ?_, ?_, ?_, ?_, ?_, ?_, ?_, ?_, ?_⟩
  · cases h1 : df.pbrake_f <;> cases h2 : df.accx_can <;>
      simp [calculate_derived_features, opt2, h1, h2]
  · intro pb ax h1 h2
    simp [calculate_derived_features, opt2, h1, h2, pyClipUpper]
  · cases h1 : df.accy_can <;> cases h2 : df.Steering_Angle <;>
      simp [calculate_derived_features, opt2, h1, h2]
  · intro ay sa h1 h2
    simp [calculate_derived_features, opt2, h1, h2]
  · cases h1 : df.Speed <;> cases h2 : df.ath <;>
      simp [calculate_derived_features, opt2, h1, h2]
  · intro sp a h1 h2
    simp [calculate_derived_features, opt2, h1, h2]
  · cases h1 : df.aps <;> cases h2 : df.ath <;>
      simp [calculate_derived_features, opt2, h1, h2]
  · intro ap a h1 h2
    simp [calculate_derived_features, opt2, h1, h2]
  · cases h1 : df.pbrake_f <;> cases h2 : df.pbrake_r <;>
      simp [calculate_derived_features, opt2, h1, h2]
  · intro pf pr h1 h2
    simp [calculate_derived_features, opt2, h1, h2]
  · cases h1 : df.nmotor <;> cases h2 : df.Gear <;>
      simp [calculate_derived_features, opt2, h1, h2]
  · intro n g h1 h2
    simp [calculate_derived_features, opt2, h1, h2]
  · cases h1 : df.Speed <;> cases h2 : df.nmotor <;>
      simp [calculate_derived_features, opt2, h1, h2]
  · intro sp n h1 h2
    simp [calculate_derived_features, opt2, h1, h2]

/-- Witness for C5: on a one-row frame with pbrake_f 80, accx_can -0.5,
accy_can 0.3 and Steering_Angle -10, braking_intensity is 40.0 and
cornering_force is 3.0; the Speed column is absent, so
throttle_efficiency is omitted. -/
theorem calculate_derived_features_spec_witness :
    (calculate_derived_features
      ⟨none, none, none, none, some [80], none, some [-(1 / 2)], some [3 / 10],
        some [-10], none⟩).braking_intensity = some [40]
    ∧ (calculate_derived_features
      ⟨none, none, none, none, some [80], none, some [-(1 / 2)], some [3 / 10],
        some [-10], none⟩).cornering_force = some [3]
    ∧ (calculate_derived_features
      ⟨none, none, none, none, some [80], none, some [-(1 / 2)], some [3 / 10],
        some [-10], none⟩).throttle_efficiency = none := by
  refine ⟨?_, ?_, ?_⟩
  · have h := (calculate_derived_features_spec
      ⟨none, none, none, none, some [80], none, some [-(1 / 2)], some [3 / 10],
        some [-10], none⟩).2.1 [80] [-(1 / 2)] rfl rfl
    rw [h]
    norm_num [List.zipWith]
    rw [abs_of_nonneg (by norm_num : (0 : ℚ) ≤ 1 / 2)]
    norm_num
  · have h := (calculate_derived_features_spec
      ⟨none, none, none, none, some [80], none, some [-(1 / 2)], some [3 / 10],
        some [-10], none⟩).2.2.2.1 [3 / 10] [-10] rfl rfl
    rw [h]
    norm_num [List.zipWith, abs_of_nonneg]
  · rfl

/-- C2 amended: the scenario selected as best (the first after sorting) is
one whose predicted_final_position is minimal among all simulated
scenarios; selection is by predicted final position, not by total time. -/
theorem best_scenario_minimizes_position (predict : ℚ → ℚ → ℚ)
    (current_lap max_laps current_position : ℤ) (gap_ahead gap_behind : ℚ)
    (tire_age_feature session_best : Option ℚ) (b : PitScenario) (l : List PitScenario)
    (h : simulate_pit_scenarios predict current_lap max_laps current_position
        gap_ahead gap_behind tire_age_feature session_best = b :: l) :
    ∀ s ∈ simulate_pit_scenarios predict current_lap max_laps current_position
        gap_ahead gap_behind tire_age_feature session_best,
      b.predicted_final_position ≤ s.predicted_final_position := by
  intro s hs
  have htrans : ∀ a c d : PitScenario,
      (fun a b => decide (a.predicted_final_position ≤ b.predicted_final_position)) a c →
      (fun a b => decide (a.predicted_final_position ≤ b.predicted_final_position)) c d →
      (fun a b => decide (a.predicted_final_position ≤ b.predicted_final_position)) a d := by
    intro a c d h1 h2
    simp only [decide_eq_true_eq] at *
    omega
  have htotal : ∀ a c : PitScenario,
      ((fun a b => decide (a.predicted_final_position ≤ b.predicted_final_position)) a c
        || (fun a b => decide (a.predicted_final_position ≤ b.predicted_final_position)) c a) := by
    intro a c
    simp only [Bool.or_eq_true, decide_eq_true_eq]
    omega
  have hsorted := List.sorted_mergeSort htrans htotal
    ((intRange current_lap ((min (max_laps - 5) (current_lap + 15)) + 1)).map (fun pit_lap =>
      simulate_single_scenario predict pit_lap current_lap max_laps current_position
        gap_ahead gap_behind session_best (tire_age_feature.getD (current_lap : ℚ))))
  rw [show ((intRange current_lap ((min (max_laps - 5) (current_lap + 15)) + 1)).map
        (fun pit_lap =>
          simulate_single_scenario predict pit_lap current_lap max_laps current_position
            gap_ahead gap_behind session_best
            (tire_age_feature.getD (current_lap : ℚ)))).mergeSort
        (fun a b => decide (a.predicted_final_position ≤ b.predicted_final_position))
      = simulate_pit_scenarios predict current_lap max_laps current_position
          gap_ahead gap_behind tire_age_feature session_best from rfl, h] at hsorted
  rw [h] at hs
  rcases List.mem_cons.mp hs with rfl | hmem
  · omega
  · have hb := (List.pairwise_cons.mp hsorted).1 s hmem
    simpa using hb

/-- Helper: with the constant-zero predictor, the pit window from lap 2 of
a 7-lap race holds the single scenario of pitting immediately. -/
theorem sims_const_zero_eval :
    simulate_pit_scenarios (fun x y => (0 : ℚ)) 2 7 5 0 0 none none
      = [⟨2, 0, 0, 5, true, 0⟩] := by
  have hw2 : simulate_single_scenario (fun x y => (0 : ℚ)) 2 2 7 5 0 0 none ((2 : ℤ) : ℚ)
      = ⟨2, 0, 0, 5, true, 0⟩ := by
    simp only [simulate_single_scenario]
    rw [show intRange 2 (2 + 1) = [2] from by decide,
      show intRange (2 + 1) (7 + 1) = [3, 4, 5, 6, 7] from by decide]
    simp only [List.map_cons, List.map_nil, List.sum_cons, List.sum_nil,
      PitScenario.mk.injEq]
    norm_num
  simp only [simulate_pit_scenarios, Option.getD_none]
  have hrange : intRange 2 (min ((7 : ℤ) - 5) (2 + 15) + 1) = [2] := by decide
  rw [hrange]
  simp only [List.map_cons, List.map_nil, hw2, List.mergeSort_singleton]

/-- Witness for C2 amended: with a constant-zero predictor, a single-lap
pit window from lap 2 of a 7-lap race yields a best scenario at predicted
final position 5, minimal among all scenarios. -/
theorem best_scenario_minimizes_position_witness :
    (5 : ℤ) ≤ (⟨2, 0, 0, 5, true, 0⟩ : PitScenario).predicted_final_position := by
  have h := best_scenario_minimizes_position (fun x y => (0 : ℚ)) 2 7 5 0 0 none none
    ⟨2, 0, 0, 5, true, 0⟩ [] sims_const_zero_eval
  exact h ⟨2, 0, 0, 5, true, 0⟩ (by rw [sims_const_zero_eval]; exact List.mem_singleton_self _)

/-- Counterexample for C2 as stated: with a predictor whose lap times grow
with tire age (8 seconds per lap of age), from lap 2 of an 8-lap race the
two candidate scenarios have equal predicted final position 5, so the
stable sort keeps the pit-now scenario (total time 176) first, even though
the other scenario has the strictly lower total time 174: the selected
best scenario is not the one whose simulated total time is lowest. -/
theorem best_scenario_not_min_total_time :
    ((simulate_pit_scenarios (fun ta x => 8 * ta) 2 8 5 0 0 (some 1) none).map
      (fun s => s.total_time)) = [176, 174]
    ∧ (174 : ℚ) < 176 := by
  have hfl : pyInt (pit_loss_seconds / (sessionBestEff none * (105 / 100))) = 0 := by
    have harg : pit_loss_seconds / (sessionBestEff none * (105 / 100)) = (5 / 21 : ℚ) := by
      norm_num [pit_loss_seconds, sessionBestEff]
    rw [harg]
    simp only [pyInt]
    rw [if_pos (by norm_num : (0 : ℚ) ≤ 5 / 21)]
    rw [Int.floor_eq_iff]
    norm_num
  have h2 : simulate_single_scenario (fun ta x => 8 * ta) 2 2 8 5 0 0 none 1
      = ⟨2, 176, 0, 5, true, 0⟩ := by
    simp only [simulate_single_scenario]
    rw [show intRange 2 (2 + 1) = [2] from by decide,
      show intRange (2 + 1) (8 + 1) = [3, 4, 5, 6, 7, 8] from by decide]
    simp only [List.map_cons, List.map_nil, List.sum_cons, List.sum_nil,
      PitScenario.mk.injEq]
    norm_num
  have h3 : simulate_single_scenario (fun ta x => 8 * ta) 3 2 8 5 0 0 none 1
      = ⟨3, 174, 0, 5, false, 1⟩ := by
    simp only [simulate_single_scenario]
    rw [hfl]
    rw [show intRange 2 (3 + 1) = [2, 3] from by decide,
      show intRange (3 + 1) (8 + 1) = [4, 5, 6, 7, 8] from by decide]
    simp only [List.map_cons, List.map_nil, List.sum_cons, List.sum_nil,
      PitScenario.mk.injEq]
    norm_num [pit_loss_seconds]
  have hms : List.mergeSort
      [(⟨2, 176, 0, 5, true, 0⟩ : PitScenario), ⟨3, 174, 0, 5, false, 1⟩]
      (fun a b => decide (a.predicted_final_position ≤ b.predicted_final_position))
      = [(⟨2, 176, 0, 5, true, 0⟩ : PitScenario), ⟨3, 174, 0, 5, false, 1⟩] := by
    apply List.mergeSort_of_sorted
    decide
  have hsims : simulate_pit_scenarios (fun ta x => 8 * ta) 2 8 5 0 0 (some 1) none
      = [⟨2, 176, 0, 5, true, 0⟩, ⟨3, 174, 0, 5, false, 1⟩] := by
    simp only [simulate_pit_scenarios, Option.getD_some]
    have hrange : intRange 2 (min ((8 : ℤ) - 5) (2 + 15) + 1) = [2, 3] := by decide
    rw [hrange]
    simp only [List.map_cons, List.map_nil, h2, h3]
    exact hms
  constructor
  · rw [hsims]
    rfl
  · norm_num

/-- Counterexample for C10 as stated: with session_best = -10 in the track
features, pitting on lap 3 from lap 2 gives position_changes = -2 (the
truncated quotient 30 / (-10.5) of the pit loss by the estimated lap time
is negative), a predicted final position 3 strictly better than the
current position 5, and the Gain branch of the recommendation is taken. -/
theorem pit_scenario_negative_changes_cex :
    (simulate_single_scenario (fun x y => (0 : ℚ)) 3 2 8 5 0 0 (some (-10)) 1).position_changes
        = -2
    ∧ (simulate_single_scenario (fun x y => (0 : ℚ)) 3 2 8 5 0 0
        (some (-10)) 1).predicted_final_position = 3
    ∧ ((3 : ℤ) < 5)
    ∧ position_impact (simulate_single_scenario (fun x y => (0 : ℚ)) 3 2 8 5 0 0
        (some (-10)) 1) 5 = Impact.gain := by
  have hfl : pyInt (pit_loss_seconds / (sessionBestEff (some (-10)) * (105 / 100))) = -2 := by
    have hq : pit_loss_seconds / (sessionBestEff (some (-10)) * (105 / 100))
        = (-(20 / 7) : ℚ) := by
      norm_num [pit_loss_seconds, sessionBestEff]
    rw [hq]
    simp only [pyInt]
    rw [if_neg (by norm_num : ¬(0 : ℚ) ≤ -(20 / 7))]
    rw [neg_neg]
    rw [show ⌊(20 / 7 : ℚ)⌋ = 2 from by rw [Int.floor_eq_iff]; norm_num]
  have hch : (simulate_single_scenario (fun x y => (0 : ℚ)) 3 2 8 5 0 0
      (some (-10)) 1).position_changes = -2 := by
    simp only [simulate_single_scenario]
    rw [if_pos (by norm_num : (3 : ℤ) > 2)]
    exact hfl
  have hpf : (simulate_single_scenario (fun x y => (0 : ℚ)) 3 2 8 5 0 0
      (some (-10)) 1).predicted_final_position = 3 := by
    simp only [simulate_single_scenario]
    rw [if_pos (by norm_num : (3 : ℤ) > 2), hfl]
    decide
  refine ⟨hch, hpf, by norm_num, ?_⟩
  simp only [position_impact, hpf]
  rw [if_pos (by norm_num : (3 : ℤ) < 5)]

/-- C10 amended: provided the effective session_best is positive (which
includes the default 120 when the feature is absent), every simulated
scenario has non-negative position_changes and predicted_final_position =
max(1, current_position + position_changes), the predicted final position
is never better than the current position, and the Gain branch of the
recommendation is unreachable; a non-positive session_best (as in the
counterexample) escapes this invariant. -/
theorem pit_scenario_position_invariant (predict : ℚ → ℚ → ℚ)
    (current_lap max_laps current_position : ℤ) (gap_ahead gap_behind : ℚ)
    (tire_age_feature session_best : Option ℚ)
    (hsb : 0 < sessionBestEff session_best) :
    ∀ s ∈ simulate_pit_scenarios predict current_lap max_laps current_position
        gap_ahead gap_behind tire_age_feature session_best,
      0 ≤ s.position_changes
      ∧ s.predicted_final_position = max 1 (current_position + s.position_changes)
      ∧ current_position ≤ s.predicted_final_position
      ∧ position_impact s current_position ≠ Impact.gain := by
  intro s hs
  simp only [simulate_pit_scenarios, List.mem_mergeSort, List.mem_map] at hs
  obtain ⟨pit_lap, hpl, rfl⟩ := hs
  have hch : 0 ≤ (simulate_single_scenario predict pit_lap current_lap max_laps
      current_position gap_ahead gap_behind session_best
      (tire_age_feature.getD (current_lap : ℚ))).position_changes := by
    simp only [simulate_single_scenario]
    split_ifs with hgt
    · have harg : 0 ≤ pit_loss_seconds / (sessionBestEff session_best * (105 / 100)) := by
        apply div_nonneg
        · norm_num [pit_loss_seconds]
        · have hm : (0 : ℚ) < sessionBestEff session_best * (105 / 100) :=
            mul_pos hsb (by norm_num)
          linarith
      simp only [pyInt, if_pos harg]
      exact Int.floor_nonneg.mpr harg
    · exact le_refl 0
  have hpf : (simulate_single_scenario predict pit_lap current_lap max_laps
      current_position gap_ahead gap_behind session_best
      (tire_age_feature.getD (current_lap : ℚ))).predicted_final_position
      = max 1 (current_position + (simulate_single_scenario predict pit_lap current_lap
          max_laps current_position gap_ahead gap_behind session_best
          (tire_age_feature.getD (current_lap : ℚ))).position_changes) := rfl
  have hle : current_position ≤ (simulate_single_scenario predict pit_lap current_lap
      max_laps current_position gap_ahead gap_behind session_best
      (tire_age_feature.getD (current_lap : ℚ))).predicted_final_position := by
    rw [hpf]
    calc current_position
        ≤ current_position + (simulate_single_scenario predict pit_lap current_lap
            max_laps current_position gap_ahead gap_behind session_best
            (tire_age_feature.getD (current_lap : ℚ))).position_changes := by omega
      _ ≤ _ := le_max_right _ _
  refine ⟨hch, hpf, hle, ?_⟩
  simp only [position_impact, if_neg (not_lt.mpr hle)]
  split_ifs <;> simp

/-- Witness for C10 amended: the invariant instantiated on the
constant-zero predictor with the default session best. -/
theorem pit_scenario_position_invariant_witness :
    0 ≤ (⟨2, 0, 0, 5, true, 0⟩ : PitScenario).position_changes
    ∧ position_impact (⟨2, 0, 0, 5, true, 0⟩ : PitScenario) 5 ≠ Impact.gain := by
  have h := pit_scenario_position_invariant (fun x y => (0 : ℚ)) 2 7 5 0 0 none none
    (by norm_num [sessionBestEff]) ⟨2, 0, 0, 5, true, 0⟩
    (by rw [sims_const_zero_eval]; exact List.mem_singleton_self _)
  exact ⟨h.1, h.2.2.2⟩

/-- Helper for C1: every output of the lap reconstruction stays strictly
below the sentinel, provided the running counter and every valid input lap
have headroom for the number of remaining samples. -/
theorem fixLapsAux_lt_bound (l : List LapIn) (cur : ℤ)
    (hcur : cur + (l.length : ℤ) < lap_error_value)
    (hl : ∀ p ∈ l, p.lap ≠ lap_error_value → p.lap + (l.length : ℤ) < lap_error_value) :
    ∀ x ∈ fixLapsAux 120 l cur, x < lap_error_value := by
  induction l generalizing cur with
  | nil =>
    intro x hx
    simp [fixLapsAux] at hx
  | cons p l ih =>
    simp only [List.length_cons] at hcur hl
    push_cast at hcur hl
    have hrec : ∀ c : ℤ, c + (l.length : ℤ) < lap_error_value →
        ∀ x ∈ fixLapsAux 120 l c, x < lap_error_value := by
      intro c hc
      refine ih c hc ?_
      intro q hq hqne
      have := hl q (List.mem_cons_of_mem _ hq) hqne
      omega
    intro x hx
    by_cases hps : p.lap = lap_error_value
    · cases hpg : p.gap with
      | none =>
        simp [fixLapsAux, hps, hpg] at hx
        rcases hx with rfl | hx
        · omega
        · exact hrec cur (by omega) x hx
      | some g =>
        by_cases hgt : g > 120
        · simp [fixLapsAux, hps, hpg, hgt] at hx
          rcases hx with rfl | hx
          · omega
          · exact hrec (cur + 1) (by omega) x hx
        · simp [fixLapsAux, hps, hpg, hgt] at hx
          rcases hx with rfl | hx
          · omega
          · exact hrec cur (by omega) x hx
    · by_cases hpos : p.lap > 0
      · simp [fixLapsAux, hps, hpos] at hx
        have hpl := hl p (List.mem_cons_self _ _) hps
        rcases hx with rfl | hx
        · omega
        · exact hrec p.lap (by omega) x hx
      · simp [fixLapsAux, hps, hpos] at hx
        rcases hx with rfl | hx
        · omega
        · exact hrec cur (by omega) x hx

/-- Helper for C1: the gap-annotated sample list of a vehicle group has
one entry per row. -/
theorem toLapInsGo_length (prev : Row) (rs : List Row) :
    (toLapInsGo prev rs).length = rs.length := by
  induction rs generalizing prev with
  | nil => rfl
  | cons r rs ih => simp [toLapInsGo, ih]

/-- Helper for C1: the gap-annotated sample list has one entry per row. -/
theorem toLapIns_length (run : List Row) : (toLapIns run).length = run.length := by
  cases run with
  | nil => rfl
  | cons r rs => simp [toLapIns, toLapInsGo_length]

/-- Helper for C1: every lap value in the gap-annotated tail comes from a
row of the tail. -/
theorem toLapInsGo_lap_mem (prev : Row) (rs : List Row) :
    ∀ p ∈ toLapInsGo prev rs, ∃ r ∈ rs, p.lap = r.lap := by
  induction rs generalizing prev with
  | nil =>
    intro p hp
    simp [toLapInsGo] at hp
  | cons r rs ih =>
    intro p hp
    simp only [toLapInsGo] at hp
    rcases List.mem_cons.mp hp with rfl | hmem
    · exact ⟨r, List.mem_cons_self r rs, rfl⟩
    · obtain ⟨r0, hr0, he⟩ := ih r p hmem
      exact ⟨r0, List.mem_cons_of_mem _ hr0, he⟩

/-- Helper for C1: every lap value in the gap-annotated list comes from a
row of the group. -/
theorem toLapIns_lap_mem (run : List Row) :
    ∀ p ∈ toLapIns run, ∃ r ∈ run, p.lap = r.lap := by
  cases run with
  | nil =>
    intro p hp
    simp [toLapIns] at hp
  | cons r rs =>
    intro p hp
    simp only [toLapIns] at hp
    rcases List.mem_cons.mp hp with rfl | hmem
    · exact ⟨r, List.mem_cons_self r rs, rfl⟩
    · obtain ⟨r0, hr0, he⟩ := toLapInsGo_lap_mem r rs p hmem
      exact ⟨r0, List.mem_cons_of_mem _ hr0, he⟩

/-- Helper for C1: each run produced by the grouping is a sublist of the
grouped list. -/
theorem groupRuns_sublist (l : List Row) : ∀ run ∈ groupRuns l, run.Sublist l := by
  induction l with
  | nil =>
    intro run h
    cases h
  | cons r rs ih =>
    intro run hrun
    simp only [groupRuns] at hrun
    cases hgr : groupRuns rs with
    | nil =>
      rw [hgr] at hrun
      simp at hrun
      subst hrun
      exact (List.nil_sublist rs).cons₂ r
    | cons g gs =>
      rw [hgr] at hrun
      cases g with
      | nil =>
        rcases List.mem_cons.mp hrun with rfl | hmem
        · exact (List.nil_sublist rs).cons₂ r
        · exact (ih run (by rw [hgr]; exact List.mem_cons_of_mem _ hmem)).cons r
      | cons x xs =>
        have hrun2 : run ∈ (if r.vehicle_id = x.vehicle_id then (r :: x :: xs) :: gs
            else [r] :: (x :: xs) :: gs) := hrun
        by_cases hv : r.vehicle_id = x.vehicle_id
        · rw [if_pos hv] at hrun2
          rcases List.mem_cons.mp hrun2 with rfl | hmem
          · exact (ih (x :: xs) (by rw [hgr]; exact List.mem_cons_self _ _)).cons₂ r
          · exact (ih run (by rw [hgr]; exact List.mem_cons_of_mem _ hmem)).cons r
        · rw [if_neg hv] at hrun2
          rcases List.mem_cons.mp hrun2 with rfl | hmem
          · exact (List.nil_sublist rs).cons₂ r
          · rcases List.mem_cons.mp hmem with rfl | hmem2
            · exact (ih (x :: xs) (by rw [hgr]; exact List.mem_cons_self _ _)).cons r
            · exact (ih run (by rw [hgr]; exact List.mem_cons_of_mem _ hmem2)).cons r

/-- Helper for C1: all rows of one run share the same vehicle id. -/
theorem groupRuns_vehicle_eq (l : List Row) :
    ∀ run ∈ groupRuns l, ∀ a ∈ run, ∀ b ∈ run, a.vehicle_id = b.vehicle_id := by
  induction l with
  | nil =>
    intro run h
    cases h
  | cons r rs ih =>
    intro run hrun a ha b hb
    simp only [groupRuns] at hrun
    cases hgr : groupRuns rs with
    | nil =>
      rw [hgr] at hrun
      simp at hrun
      subst hrun
      simp at ha hb
      rw [ha, hb]
    | cons g gs =>
      rw [hgr] at hrun
      cases g with
      | nil =>
        rcases List.mem_cons.mp hrun with rfl | hmem
        · simp at ha hb
          rw [ha, hb]
        · exact ih run (by rw [hgr]; exact List.mem_cons_of_mem _ hmem) a ha b hb
      | cons x xs =>
        have hrun2 : run ∈ (if r.vehicle_id = x.vehicle_id then (r :: x :: xs) :: gs
            else [r] :: (x :: xs) :: gs) := hrun
        by_cases hv : r.vehicle_id = x.vehicle_id
        · rw [if_pos hv] at hrun2
          rcases List.mem_cons.mp hrun2 with rfl | hmem
          · have key : ∀ c ∈ r :: x :: xs, c.vehicle_id = x.vehicle_id := by
              intro c hc
              rcases List.mem_cons.mp hc with rfl | hc2
              · exact hv
              · exact ih (x :: xs) (by rw [hgr]; exact List.mem_cons_self _ _) c hc2 x
                  (List.mem_cons_self _ _)
            rw [key a ha, key b hb]
          · exact ih run (by rw [hgr]; exact List.mem_cons_of_mem _ hmem) a ha b hb
        · rw [if_neg hv] at hrun2
          rcases List.mem_cons.mp hrun2 with rfl | hmem
          · simp at ha hb
            rw [ha, hb]
          · rcases List.mem_cons.mp hmem with rfl | hmem2
            · exact ih (x :: xs) (by rw [hgr]; exact List.mem_cons_self _ _) a ha b hb
            · exact ih run (by rw [hgr]; exact List.mem_cons_of_mem _ hmem2) a ha b hb

/-- Helper for C1: the lap of every row written back by the zip is one of
the reconstructed lap values. -/
theorem mem_zipWith_setLap (run : List Row) (nl : List ℤ) :
    ∀ r ∈ List.zipWith (fun r nl => { r with lap := nl }) run nl, r.lap ∈ nl := by
  induction run generalizing nl with
  | nil =>
    intro r hr
    simp at hr
  | cons a run ih =>
    intro r hr
    cases nl with
    | nil => simp at hr
    | cons n nl =>
      simp only [List.zipWith_cons_cons] at hr
      rcases List.mem_cons.mp hr with rfl | hmem
      · exact List.mem_cons_self _ _
      · exact List.mem_cons_of_mem _ (ih nl r hmem)

/-- C1 amended: after fix_lap_errors, no row whose vehicle_id is non-null
carries the sentinel lap 32768, provided the reconstructed counter cannot
reach the sentinel: the table is smaller than 32767 rows and every
non-sentinel input lap leaves that much headroom.  Rows whose vehicle_id
is null are skipped by the per-vehicle loop and can keep the sentinel, and
without the headroom hypothesis the incremented counter itself can land on
32768 (see the counterexample). -/
theorem fix_lap_errors_no_sentinel (df : List Row)
    (hlen : 1 + (df.length : ℤ) < lap_error_value)
    (hval : ∀ r ∈ df, r.lap ≠ lap_error_value →
      r.lap + (df.length : ℤ) < lap_error_value) :
    ∀ r ∈ fix_lap_errors df, r.vehicle_id ≠ none → r.lap ≠ lap_error_value := by
  intro r hr hv
  simp only [fix_lap_errors] at hr
  split_ifs at hr with hcnt
  · have h0 := List.countP_eq_zero.mp hcnt r hr
    simpa using h0
  · rw [List.mem_flatMap] at hr
    obtain ⟨run, hrun, hrproc⟩ := hr
    have hsub : run.Sublist (df.mergeSort rowLe) := groupRuns_sublist _ run hrun
    have hrunlen : run.length ≤ df.length := by
      have hle := hsub.length_le
      simpa using hle
    have hmemdf : ∀ a ∈ run, a ∈ df := by
      intro a ha
      have hms : a ∈ df.mergeSort rowLe := hsub.subset ha
      exact List.mem_mergeSort.mp hms
    rcases run with _ | ⟨x, rest⟩
    · simp [processRun] at hrproc
    · simp only [processRun] at hrproc
      cases hvx : x.vehicle_id with
      | none =>
        rw [hvx] at hrproc
        have hre : r.vehicle_id = x.vehicle_id :=
          groupRuns_vehicle_eq _ _ hrun r hrproc x (List.mem_cons_self _ _)
        rw [hvx] at hre
        exact absurd hre hv
      | some v =>
        rw [hvx] at hrproc
        have hlapmem : r.lap ∈ fixGroup (x :: rest) := mem_zipWith_setLap _ _ r hrproc
        have hlt : r.lap < lap_error_value := by
          refine fixLapsAux_lt_bound (toLapIns (x :: rest)) 1 ?_ ?_ r.lap hlapmem
          · rw [toLapIns_length]
            have hc : ((x :: rest).length : ℤ) ≤ (df.length : ℤ) := by
              exact_mod_cast hrunlen
            omega
          · intro p hp hne
            obtain ⟨r0, hr0, he⟩ := toLapIns_lap_mem _ p hp
            have hr0df : r0 ∈ df := hmemdf r0 hr0
            have hv0 := hval r0 hr0df (by rw [← he]; exact hne)
            rw [toLapIns_length, he]
            have hc : ((x :: rest).length : ℤ) ≤ (df.length : ℤ) := by
              exact_mod_cast hrunlen
            omega
        exact ne_of_lt hlt

/-- Counterexample for C1 as stated: a table whose single sentinel row has
a null vehicle_id keeps the sentinel (the per-vehicle loop skips NaN
vehicles), and a two-row vehicle whose valid lap is 32767 followed by a
sentinel row after a 200-second gap gets the incremented counter 32768,
which is again the sentinel. -/
theorem fix_lap_errors_cex :
    (fix_lap_errors [⟨none, 0, 32768⟩]).map (fun r => r.lap) = [32768]
    ∧ (fix_lap_errors [⟨some "A", 0, 32767⟩, ⟨some "A", 200000, 32768⟩]).map
        (fun r => r.lap) = [32767, 32768] := by
  constructor
  · simp only [fix_lap_errors]
    rw [if_neg (by decide)]
    rw [List.mergeSort_singleton]
    rfl
  · have hle : rowLe ⟨some "A", 0, 32767⟩ ⟨some "A", 200000, 32768⟩ = true := by
      simp only [rowLe]
      norm_num
    have hms2 : List.mergeSort
        [(⟨some "A", 0, 32767⟩ : Row), ⟨some "A", 200000, 32768⟩] rowLe
        = [(⟨some "A", 0, 32767⟩ : Row), ⟨some "A", 200000, 32768⟩] := by
      apply List.mergeSort_of_sorted
      refine List.pairwise_cons.mpr ⟨?_, List.pairwise_singleton _ _⟩
      intro b hb
      rcases List.mem_cons.mp hb with rfl | hb2
      · exact hle
      · cases hb2
    simp only [fix_lap_errors]
    rw [if_neg (by decide)]
    rw [hms2]
    norm_num [groupRuns, processRun, fixGroup, toLapIns, toLapInsGo, fixLapsAux,
      lap_error_value]

/-- Witness for C1 amended: a one-row table with a non-null vehicle and a
sentinel lap satisfies the headroom hypotheses and yields no sentinel on
any non-null-vehicle row. -/
theorem fix_lap_errors_no_sentinel_witness :
    (1 + (([(⟨some "A", 0, 32768⟩ : Row)] : List Row).length : ℤ) < lap_error_value)
    ∧ ∀ r ∈ fix_lap_errors [(⟨some "A", 0, 32768⟩ : Row)],
        r.vehicle_id ≠ none → r.lap ≠ lap_error_value := by
  constructor
  · norm_num [lap_error_value]
  · refine fix_lap_errors_no_sentinel _ (by norm_num [lap_error_value]) ?_
    intro r hr hne
    simp at hr
    subst hr
    exact absurd rfl hne

end GRCup
